import Mathlib

/-!
Verification development for the PythonCoverCollector repository
(BookCoverCollector.py). The Python source is shallowly embedded:

* Python strings are Lean Strings, but every Python string operation used by
  the program (strip, split, replace, containment, int()/float() parsing) is
  re-implemented on the underlying character list by structural recursion, so
  that every definition evaluates inside the kernel.
* Network calls are modelled by response oracles passed as parameters: the
  transport itself is external, the program logic consuming a response is
  embedded faithfully.
* Python exceptions that the program can raise and that are observable
  (IndexError inside record construction, NameError from the missing
  time import in download_covers_to_folder, ValueError from int()/float())
  are modelled with Except / explicit error values.
-/

namespace BookCoverCollector

/-! ## Python string primitives (embedded on character lists) -/

/-- Python str.strip on a character list: drop leading and trailing
whitespace. Matches Python for the ASCII whitespace that occurs in this
program. -/
def pyStripChars (l : List Char) : List Char :=
  ((l.dropWhile Char.isWhitespace).reverse.dropWhile Char.isWhitespace).reverse

/-- Python str.strip for Lean strings. -/
def pyStrip (s : String) : String := String.mk (pyStripChars s.toList)

/-- Does the character list start with the given nonempty pattern
(first pattern char given separately so the pattern is nonempty by
construction, as in every separator this program uses)? -/
def charsStartsWith : List Char → Char → List Char → Bool
  | [], _, _ => false
  | c :: _, p0, [] => c == p0
  | c :: cs, p0, p1 :: ps => c == p0 && charsStartsWith cs p1 ps

/-- Python substring containment test (the in operator) for a nonempty
pattern, scanning left to right. -/
def charsContains : List Char → Char → List Char → Bool
  | [], _, _ => false
  | c :: cs, p0, ps => charsStartsWith (c :: cs) p0 ps || charsContains cs p0 ps

/-- Python str.split with a nonempty separator, fuel-based so that it is
structurally recursive and kernel-evaluable. Fuel at least the length of the
input always suffices. Matches Python: empty input gives one empty chunk, and
separators are consumed left to right without overlap. -/
def pySplitFuel (p0 : Char) (ps : List Char) : Nat → List Char → List Char → List (List Char)
  | 0, l, acc => [(acc.reverse ++ l)]
  | _ + 1, [], acc => [acc.reverse]
  | fuel + 1, c :: cs, acc =>
    if charsStartsWith (c :: cs) p0 ps then
      acc.reverse :: pySplitFuel p0 ps fuel (cs.drop ps.length) []
    else
      pySplitFuel p0 ps fuel cs (c :: acc)

/-- Python str.split with a nonempty separator, on Lean strings. -/
def pySplit (s : String) (p0 : Char) (ps : List Char) : List String :=
  (pySplitFuel p0 ps (s.toList.length + 1) s.toList []).map String.mk

/-- Python str.replace for a single character (the only replace the program
performs is replacing a newline with a comma). -/
def pyReplaceChar (s : String) (a b : Char) : String :=
  String.mk (s.toList.map (fun c => if c == a then b else c))

/-- Numeric value of a list of decimal digit characters. -/
def digitsToNat (l : List Char) : Nat :=
  l.foldl (fun a c => 10 * a + (c.toNat - 48)) 0

/-- Python int(s): strip whitespace, optional sign, then a nonempty run of
decimal digits; anything else raises ValueError, modelled as none.
(Underscore separators and non-decimal bases never occur in this program and
are not modelled.) -/
def pyInt (s : String) : Option Int :=
  let t := pyStripChars s.toList
  match t with
  | '-' :: rest =>
    if rest ≠ [] ∧ rest.all Char.isDigit then some (-(digitsToNat rest : Int)) else none
  | '+' :: rest =>
    if rest ≠ [] ∧ rest.all Char.isDigit then some ((digitsToNat rest : Int)) else none
  | l => if l ≠ [] ∧ l.all Char.isDigit then some ((digitsToNat l : Int)) else none

/-- Optional sign at the front of a numeric literal. Returns
(negative, remaining characters). -/
def pySign : List Char → Bool × List Char
  | '-' :: r => (true, r)
  | '+' :: r => (false, r)
  | l => (false, l)

/-- Mantissa of a Python float literal: digits, digits.digits, .digits or
digits. (at least one digit overall), valued as a rational. -/
def pyFloatMantissa (l : List Char) : Option ℚ :=
  match pySplitFuel '.' [] (l.length + 1) l [] with
  | [a] =>
    if a ≠ [] ∧ a.all Char.isDigit then some ((digitsToNat a : ℚ)) else none
  | [a, b] =>
    if (a ≠ [] ∨ b ≠ []) ∧ a.all Char.isDigit ∧ b.all Char.isDigit then
      some ((digitsToNat a : ℚ) + (digitsToNat b : ℚ) / ((10 : ℚ) ^ b.length))
    else none
  | _ => none

/-- Exponent part of a Python float literal: optional sign then digits. -/
def pyExpVal (l : List Char) : Option Int :=
  let (neg, r) := pySign l
  if r ≠ [] ∧ r.all Char.isDigit then
    some (if neg then -(digitsToNat r : Int) else (digitsToNat r : Int))
  else none

/-- Ten to an integer power, as a rational. -/
def qpow10 (e : Int) : ℚ :=
  if 0 ≤ e then ((10 : ℚ) ^ e.toNat) else 1 / ((10 : ℚ) ^ (-e).toNat)

/-- Python float(s) on decimal literals with optional sign, fraction and
exponent; anything else raises ValueError, modelled as none. (The inf/nan
words and underscore separators never occur in this program and are not
modelled.) -/
def pyFloat (s : String) : Option ℚ :=
  let t := pyStripChars s.toList
  let (neg, body) := pySign t
  let bodyL := body.map (fun c => if c == 'E' then 'e' else c)
  match pySplitFuel 'e' [] (bodyL.length + 1) bodyL [] with
  | [m] => (pyFloatMantissa m).map (fun q => if neg then -q else q)
  | [m, ex] =>
    match pyFloatMantissa m, pyExpVal ex with
    | some q, some e => some ((if neg then -q else q) * qpow10 e)
    | _, _ => none
  | _ => none

/-- Python truthiness of an optional string (None and the empty string are
falsy). -/
def pyTruthyStr : Option String → Bool
  | some s => s != ""
  | none => false

/-- Python truthiness of an optional list (None and the empty list are
falsy). -/
def pyTruthyList : Option (List String) → Bool
  | some l => !l.isEmpty
  | none => false

/-- Python truthiness of an optional integer (None and 0 are falsy). -/
def pyTruthyNat : Option Nat → Bool
  | some n => n != 0
  | none => false

/-! ## Data model: search documents and book records

A search document is the relevant part of one element of the docs array of
the search response in fetch_books_by_isbns. Option models key presence in
the JSON object (doc.get). The seed field is modelled as a list of strings:
the source guards each element with an isinstance str check, and non-string
elements are simply skipped, which coincides with restricting the model to
string seeds. The isbn field is modelled as an optional list of strings;
the source checks isinstance list on doc.get with default [], which is
always a list in this model. -/

structure Doc where
  title : Option String
  author_name : Option (List String)
  subject : Option (List String)
  seed : List String
  isbn : Option (List String)
  key : Option String
  first_sentence_value : Option String
  first_sentence : Option (List String)
  first_publish_year : Option Nat
deriving DecidableEq

/-- A book record as built by fetch_books_by_isbns (the dict appended to
books). -/
structure Book where
  title : String
  authors : List String
  cover_url_medium : String
  cover_url_large : String
  subjects_from_ol : List String
  isbn : List String
  openlibrary_key : Option String
  description : String
  description_loaded : Bool
deriving DecidableEq

/-- The one Python exception observable inside record construction: the
IndexError from indexing position 0 of an empty first-sentence list. -/
inductive PyErr where
  | indexError
deriving DecidableEq

/-! ## Document matcher (fetch_books_by_isbns, non-shortcut path) -/

/-- Test for the identifier marker substring /isbn/ inside a seed
reference. -/
def hasIsbnMarker (s : String) : Bool :=
  charsContains s.toList '/' ['i', 's', 'b', 'n', '/']

/-- The trailing token of a seed reference: the last element of splitting on
the /isbn/ marker, as in seed_item.split of the marker indexed at -1. -/
def isbnAfterMarker (s : String) : String :=
  (pySplit s '/' ['i', 's', 'b', 'n', '/']).getLastD ""

/-- Seed-field scan of fetch_books_by_isbns: walk the seed list; for each
string seed containing the /isbn/ marker, extract the trailing token and
accept it if it is a member of the batch; the first acceptance wins. -/
def seedScan (batch : List String) : List String → Option String
  | [] => none
  | s :: rest =>
    if hasIsbnMarker s then
      if batch.contains (isbnAfterMarker s) then some (isbnAfterMarker s)
      else seedScan batch rest
    else seedScan batch rest

/-- Direct identifier-field scan: the first element of the document isbn
list that is a member of the batch. -/
def directScan (batch : List String) (isbns : List String) : Option String :=
  isbns.find? (fun p => batch.contains p)

/-- The per-document matching of fetch_books_by_isbns outside the
single-pair shortcut: seed scan first; the direct field is consulted only
when the seed scan produced nothing truthy; a final truthiness test decides
whether the document is kept. The truthiness tests mirror the two
Python if not found_isbn_in_doc checks, under which an empty-string match
counts as no match. -/
def matchDoc (batch : List String) (d : Doc) : Option String :=
  let f1 := seedScan batch d.seed
  let f2 :=
    if pyTruthyStr f1 then f1
    else
      match directScan batch (d.isbn.getD []) with
      | some t => some t
      | none => f1
  if pyTruthyStr f2 then f2 else none

/-! ## Record builder -/

/-- The synthesized published-year string used as final list fallback in the
description expression. -/
def pubStr (d : Doc) : String :=
  match d.first_publish_year with
  | some y => "Published: " ++ toString y
  | none => "Published: N/A"

/-- The description expression of the book dict in fetch_books_by_isbns.
It is a conditional expression: if none of first_sentence_value,
first_sentence, first_publish_year is truthy, the constant text is used.
Otherwise Python evaluates
doc.get of first_sentence_value with default
(doc.get of first_sentence with default [published-string]) indexed at 0.
The default argument is evaluated eagerly, so a present-but-empty
first-sentence list raises IndexError even when first_sentence_value is
present; that exception escapes to the per-batch handler. -/
def descriptionOf (d : Doc) : Except PyErr String :=
  if pyTruthyStr d.first_sentence_value || pyTruthyList d.first_sentence ||
      pyTruthyNat d.first_publish_year then
    match d.first_sentence.getD [pubStr d] with
    | [] => Except.error PyErr.indexError
    | d0 :: _ => Except.ok (d.first_sentence_value.getD d0)
  else Except.ok "Description not available."

/-- Construction of the book dict of fetch_books_by_isbns from the matched
identifier and the document; both the single-pair branch and the generic
branch build exactly this shape. Raises (as Except.error) exactly when the
description expression raises. -/
def buildBook (matchedIsbn : String) (d : Doc) : Except PyErr Book :=
  match descriptionOf d with
  | Except.error e => Except.error e
  | Except.ok desc =>
    Except.ok
      { title := d.title.getD "Unknown Title"
        authors := d.author_name.getD ["Unknown Author"]
        cover_url_medium := "https://covers.openlibrary.org/b/isbn/" ++ matchedIsbn ++ "-M.jpg"
        cover_url_large := "https://covers.openlibrary.org/b/isbn/" ++ matchedIsbn ++ "-L.jpg"
        subjects_from_ol := d.subject.getD []
        isbn := [matchedIsbn]
        openlibrary_key := d.key
        description := desc
        description_loaded := true }

/-- The generic per-document loop of fetch_books_by_isbns: match each
document; unmatched documents are skipped; a construction exception aborts
the rest of the documents of this chunk (it is caught by the per-batch
handler) while keeping the records already appended. -/
def processDocs (batch : List String) : List Doc → List Book
  | [] => []
  | d :: rest =>
    match matchDoc batch d with
    | none => processDocs batch rest
    | some i =>
      match buildBook i d with
      | Except.ok b => b :: processDocs batch rest
      | Except.error _ => []

/-- Per-chunk processing of fetch_books_by_isbns after a successful parsed
response: the single-pair shortcut applies when the batch and the docs list
both have exactly one element, and matches unconditionally; otherwise the
generic matching loop runs. A construction exception in the shortcut branch
likewise yields no record for the chunk. -/
def processChunk (batch : List String) (docs : List Doc) : List Book :=
  match batch, docs with
  | [oneIsbn], [d] =>
    match buildBook oneIsbn d with
    | Except.ok b => [b]
    | Except.error _ => []
  | _, _ => processDocs batch docs

/-! ## Batch fetcher -/

/-- The cleanup at the top of fetch_books_by_isbns: strip every identifier
and keep the non-empty ones. -/
def cleanIsbnList (l : List String) : List String :=
  (l.map pyStrip).filter (fun s => s ≠ "")

/-- Accumulating worker for the batch partition (slices of size 50). -/
def chunksGo : List String → List String → Nat → List (List String)
  | [], acc, _ => if acc = [] then [] else [acc.reverse]
  | x :: xs, acc, 0 => acc.reverse :: chunksGo xs [x] 49
  | x :: xs, acc, k + 1 => chunksGo xs (x :: acc) k

/-- The batch partition of fetch_books_by_isbns: consecutive slices of at
most 50 identifiers, in order. -/
def chunksOf50 (l : List String) : List (List String) :=
  chunksGo l [] 50

/-- fetch_books_by_isbns. The network is a response oracle from the chunk
to an optional parsed docs list: none models a non-200 status, a transport
timeout or exception, or a JSON decode failure, each of which makes the
source skip the chunk and continue. -/
def fetchBooksByIsbns (resp : List String → Option (List Doc))
    (isbnList : List String) : List Book :=
  let cleaned := cleanIsbnList isbnList
  (chunksOf50 cleaned).flatMap (fun batch =>
    match resp batch with
    | none => []
    | some docs => processChunk batch docs)

/-! ## Identifier normalizer (BookManagerApp.fetch_books_by_isbn) -/

/-- The parsing step of the fetch_books_by_isbn handler: the widget text is
stripped, newlines are replaced by commas, the text is split on commas, each
token is stripped, and empty tokens are dropped. No deduplication is
performed anywhere on this path (nor by the later cleanup inside
fetch_books_by_isbns), although the comment above that cleanup announces
removing duplicates. -/
def parseIsbnInput (raw : String) : List String :=
  let isbnString := pyStrip raw
  (pySplit (pyReplaceChar isbnString '\n' ',') ',' []).filterMap (fun pat =>
    let i := pyStrip pat
    if i = "" then none else some i)

/-! ## Export shaper (BookManagerApp.export_book_data)

The payload is a Python dict with string keys; it is modelled as an
association list in insertion order with the dict update and delete
operations. The method also guards on a loaded book before touching the
form; that guard involves no form field and is outside this embedding,
which models the payload shaping from the form state. -/

/-- A JSON-able Python value as used in the export payload. -/
inductive PyVal where
  | str (s : String)
  | int (n : Int)
  | float (q : ℚ)
  | bool (b : Bool)
  | list (l : List PyVal)

/-- The payload dict: keys with values, in insertion order. -/
abbrev Payload := List (String × PyVal)

/-- Python dict lookup (keys are unique by construction, so first match is
the entry). -/
def getKey : Payload → String → Option PyVal
  | [], _ => none
  | (k0, v0) :: rest, k => if k0 = k then some v0 else getKey rest k

/-- Python dict key-membership (the in operator on the dict). -/
def hasKey (p : Payload) (k : String) : Bool :=
  (getKey p k).isSome

/-- Python dict assignment: overwrite in place if the key exists, append
otherwise. -/
def setKey : Payload → String → PyVal → Payload
  | [], k, v => [(k, v)]
  | (k0, v0) :: rest, k, v =>
    if k0 = k then (k0, v) :: rest else (k0, v0) :: setKey rest k v

/-- Python dict del (keys are unique, so removing every occurrence of the
key coincides with dict deletion). -/
def delKey : Payload → String → Payload
  | [], _ => []
  | (k0, v0) :: rest, k =>
    if k0 = k then delKey rest k else (k0, v0) :: delKey rest k

/-- The two validation failures export_book_data can report: the missing
owner warning, and the ValueError handler for a non-numeric field, carrying
the offending input named by the exception text. -/
inductive ExportError where
  | missingOwner
  | invalidNumber (offending : String)
deriving DecidableEq

/-- The form state read by export_book_data: one field per Tk variable it
consults, with the description text as held by the text widget. -/
structure FormState where
  title : String
  author : String
  condition : String
  bookType : String
  status : String
  description : String
  featured : Bool
  bookOfWeek : Bool
  bookOfYear : Bool
  displayStrapi : Bool
  rating : Int
  users_permissions_user : String
  price : String
  subject : String
  course : String
  exchange : String
  displayTitle : String
  categories : String
  cover : String
deriving DecidableEq

/-- The eleven unconditional entries collected first by export_book_data, in
source order; the description is stripped. -/
def basePayload (f : FormState) : Payload :=
  [("title", PyVal.str f.title),
   ("author", PyVal.str f.author),
   ("condition", PyVal.str f.condition),
   ("bookType", PyVal.str f.bookType),
   ("status", PyVal.str f.status),
   ("description", PyVal.str (pyStrip f.description)),
   ("featured", PyVal.bool f.featured),
   ("bookOfWeek", PyVal.bool f.bookOfWeek),
   ("bookOfYear", PyVal.bool f.bookOfYear),
   ("Display", PyVal.bool f.displayStrapi),
   ("rating", PyVal.int f.rating)]

/-- Owner handling: an empty owner field warns and aborts; otherwise the
field is parsed with int(), a ValueError aborting with the offending
input. -/
def ownerStage (f : FormState) (p : Payload) : Except ExportError Payload :=
  if f.users_permissions_user = "" then Except.error ExportError.missingOwner
  else
    match pyInt f.users_permissions_user with
    | some n => Except.ok (setKey p "users_permissions_user" (PyVal.int n))
    | none => Except.error (ExportError.invalidNumber f.users_permissions_user)

/-- Price handling: when the book type is exactly For Sale, a non-empty
price is parsed with float() (ValueError aborts) and an empty price is
coerced to numeric zero; for any other type, the price key is deleted if
present (it never is at this point, but the source spells the delete). -/
def priceStage (f : FormState) (p : Payload) : Except ExportError Payload :=
  if f.bookType = "For Sale" then
    if f.price = "" then Except.ok (setKey p "price" (PyVal.float 0))
    else
      match pyFloat f.price with
      | some q => Except.ok (setKey p "price" (PyVal.float q))
      | none => Except.error (ExportError.invalidNumber f.price)
  else Except.ok (if hasKey p "price" then delKey p "price" else p)

/-- Worker for the category list comprehension over the comma-separated
tokens: strip each token, skip empty tokens, parse each remaining token with
int(); the first ValueError aborts, named by the stripped token that
raised. -/
def parseIntTokens : List String → Except String (List Int)
  | [] => Except.ok []
  | tok :: rest =>
    let t := pyStrip tok
    if t = "" then parseIntTokens rest
    else
      match pyInt t with
      | none => Except.error t
      | some n =>
        match parseIntTokens rest with
        | Except.error e => Except.error e
        | Except.ok l => Except.ok (n :: l)

/-- The category list comprehension of export_book_data. -/
def parseIntList (s : String) : Except String (List Int) :=
  parseIntTokens (pySplit s ',' [])

/-- Categories handling: a falsy (empty) field is skipped entirely,
otherwise the parsed integer list is stored. -/
def categoriesStage (f : FormState) (p : Payload) : Except ExportError Payload :=
  if f.categories = "" then Except.ok p
  else
    match parseIntList f.categories with
    | Except.ok l => Except.ok (setKey p "categories" (PyVal.list (l.map PyVal.int)))
    | Except.error t => Except.error (ExportError.invalidNumber t)

/-- Cover id handling: a falsy (empty) field is skipped, otherwise the field
is parsed with int() on the unstripped text, a ValueError aborting with the
field text. -/
def coverStage (f : FormState) (p : Payload) : Except ExportError Payload :=
  if f.cover = "" then Except.ok p
  else
    match pyInt f.cover with
    | some n => Except.ok (setKey p "cover" (PyVal.int n))
    | none => Except.error (ExportError.invalidNumber f.cover)

/-- The four optional trailing fields after the try block: subject and
course when non-empty, exchange when the type is For Swap and the field is
non-empty, display title when non-empty. -/
def optionalStage (f : FormState) (p : Payload) : Payload :=
  let p1 := if f.subject ≠ "" then setKey p "subject" (PyVal.str f.subject) else p
  let p2 := if f.course ≠ "" then setKey p1 "course" (PyVal.str f.course) else p1
  let p3 :=
    if f.bookType = "For Swap" ∧ f.exchange ≠ "" then
      setKey p2 "exchange" (PyVal.str f.exchange)
    else p2
  if f.displayTitle ≠ "" then setKey p3 "displayTitle" (PyVal.str f.displayTitle) else p3

/-- export_book_data as a whole: the base entries, then the owner, price,
categories and cover steps of the try block in source order (the first
failure aborts with no payload emitted), then the optional fields. The
successful result is the inner dict of the printed data wrapper. -/
def exportBookData (f : FormState) : Except ExportError Payload :=
  match ownerStage f (basePayload f) with
  | Except.error e => Except.error e
  | Except.ok p1 =>
    match priceStage f p1 with
    | Except.error e => Except.error e
    | Except.ok p2 =>
      match categoriesStage f p2 with
      | Except.error e => Except.error e
      | Except.ok p3 =>
        match coverStage f p3 with
        | Except.error e => Except.error e
        | Except.ok p4 => Except.ok (optionalStage f p4)

/-! ## Detail enricher (fetch_book_details and the description part of
BookManagerApp.load_book_data) -/

/-- The shape of the description field of a parsed detail response: absent,
a plain string, a dict carrying a value entry, or anything else. -/
inductive DescObj where
  | missing
  | strVal (s : String)
  | objWithValue (v : String)
  | otherShape
deriving DecidableEq

/-- Outcome of the detail request: a 200 response with parsed body, a
non-200 status, or a transport exception with its text. -/
inductive DetailResp where
  | success (d : DescObj)
  | httpStatus (code : Nat)
  | exn (msg : String)
deriving DecidableEq

/-- fetch_book_details: a falsy key short-circuits with the no-key failure
before any network use; otherwise the oracle outcome is consumed as in the
source, extracting the description by shape. Returns the pair of optional
details (the extracted description) and optional failure reason. -/
def fetchBookDetails (key : Option String) (resp : DetailResp) :
    Option String × Option String :=
  if pyTruthyStr key = false then (none, some "No key provided")
  else
    match resp with
    | DetailResp.success d =>
      let description :=
        match d with
        | DescObj.strVal s => s
        | DescObj.objWithValue v => v
        | _ => "Not available."
      (some description, none)
    | DetailResp.httpStatus code =>
      (none, some ("Failed to fetch details, status: " ++ toString code))
    | DetailResp.exn m =>
      (none, some ("Request exception for details: " ++ m))

/-- The description-loading part of load_book_data: when the record is not
yet marked loaded, fetch the details; on success store the description, on
failure store the error text; in both cases the loaded flag is set to
true. -/
def loadBookDescription (book : Book) (resp : DetailResp) : Book :=
  if book.description_loaded then book
  else
    let r := fetchBookDetails book.openlibrary_key resp
    let desc :=
      match r.1 with
      | some d => d
      | none => "Error fetching description: " ++ r.2.getD ""
    { book with description := desc, description_loaded := true }

/-! ## Bulk cover download (download_covers_to_folder)

The source file never imports the time module, yet the loop ends every
processed iteration with a call of time.sleep; reaching that call raises an
uncaught NameError. The percent variable is first assigned after the network
call succeeds, so the two exception handlers, which interpolate percent into
their message, raise an uncaught UnboundLocalError when no prior iteration
bound it. Both uncaught exceptions abort the whole loop; the model records
them in the result. -/

/-- Outcome of one cover request: a response with status code and body, a
timeout, or another request exception. -/
inductive CoverResp where
  | httpResp (code : Nat) (content : String)
  | timeout
  | reqError (msg : String)

/-- The per-item console messages of the loop, with the fields they
interpolate (the percent display is carried implicitly by the loop
position). -/
inductive LogEntry where
  | skippedNoUrl (title : String)
  | downloaded (title : String)
  | failedStatus (title : String) (code : Nat)
  | timedOut (title : String)
  | requestFailed (title : String) (msg : String)
deriving DecidableEq

/-- The uncaught Python exceptions of the loop. -/
inductive PyRuntimeError where
  | nameErrorTime
  | unboundLocalPercent
deriving DecidableEq

/-- Result of the bulk download: messages printed, files written, and the
uncaught exception that ended the loop, if any. -/
structure DownloadResult where
  logs : List LogEntry
  files : List String
  uncaught : Option PyRuntimeError
deriving DecidableEq

/-- The filename sanitizer: the first 50 title characters with every
non-alphanumeric character replaced by an underscore. -/
def sanitizeTitle (t : String) : String :=
  String.mk ((t.toList.take 50).map (fun c => if c.isAlphanum then c else '_'))

/-- The target filename of the i-th cover. -/
def coverFileName (folder : String) (i : Nat) (title : String) : String :=
  folder ++ "/" ++ toString i ++ "_" ++ sanitizeTitle title ++ ".jpg"

/-- The download loop. Arguments after the oracle, folder and total: the
remaining records, the 1-based index, the value of percent if a prior
iteration bound it, and the reversed accumulators of messages and files.
Records without a cover URL are skipped and the loop continues; every
iteration that enters the try block ends in an uncaught exception: either
UnboundLocalError inside an exception handler run before percent was ever
bound, or NameError at the time.sleep call. -/
def downloadGo (resp : String → CoverResp) (folder : String) (total : Nat) :
    List Book → Nat → Option Nat → List LogEntry → List String → DownloadResult
  | [], _, _, logs, files => ⟨logs.reverse, files.reverse, none⟩
  | b :: rest, i, pc, logs, files =>
    if b.cover_url_large = "" then
      downloadGo resp folder total rest (i + 1) pc
        (LogEntry.skippedNoUrl b.title :: logs) files
    else
      match resp b.cover_url_large with
      | CoverResp.httpResp code _ =>
        if code = 200 then
          ⟨(LogEntry.downloaded b.title :: logs).reverse,
           (coverFileName folder i b.title :: files).reverse,
           some PyRuntimeError.nameErrorTime⟩
        else
          ⟨(LogEntry.failedStatus b.title code :: logs).reverse, files.reverse,
           some PyRuntimeError.nameErrorTime⟩
      | CoverResp.timeout =>
        match pc with
        | none => ⟨logs.reverse, files.reverse, some PyRuntimeError.unboundLocalPercent⟩
        | some _ =>
          ⟨(LogEntry.timedOut b.title :: logs).reverse, files.reverse,
           some PyRuntimeError.nameErrorTime⟩
      | CoverResp.reqError m =>
        match pc with
        | none => ⟨logs.reverse, files.reverse, some PyRuntimeError.unboundLocalPercent⟩
        | some _ =>
          ⟨(LogEntry.requestFailed b.title m :: logs).reverse, files.reverse,
           some PyRuntimeError.nameErrorTime⟩

/-- download_covers_to_folder with the default folder argument: an empty
record list returns immediately, otherwise the loop runs from index 1. -/
def downloadCoversToFolder (resp : String → CoverResp) (books : List Book) :
    DownloadResult :=
  if books = [] then ⟨[], [], none⟩
  else downloadGo resp "downloaded_book_covers" books.length books 1 none [] []

/-! ## Helper lemmas: document matching -/

/-- Every identifier the seed scan accepts is a member of the batch. -/
lemma seedScan_mem {batch : List String} :
    ∀ {seeds : List String} {t : String}, seedScan batch seeds = some t → t ∈ batch := by
  intro seeds
  induction seeds with
  | nil => intro t h; simp [seedScan] at h
  | cons s rest ih =>
    intro t h
    rw [seedScan] at h
    split at h
    · split at h
      · rename_i hc
        cases h
        simpa using hc
      · exact ih h
    · exact ih h

/-- Every identifier the direct scan accepts is a member of the batch. -/
lemma directScan_mem {batch isbns : List String} {t : String}
    (h : directScan batch isbns = some t) : t ∈ batch := by
  have h2 := List.find?_some h
  simpa using h2

/-- Every identifier the per-document matcher returns is a member of the
batch. -/
lemma matchDoc_mem {batch : List String} {d : Doc} {t : String}
    (h : matchDoc batch d = some t) : t ∈ batch := by
  unfold matchDoc at h
  cases hs : seedScan batch d.seed with
  | none =>
    cases hd : directScan batch (d.isbn.getD []) with
    | none => simp [hs, hd, pyTruthyStr] at h
    | some t2 =>
      by_cases ht2 : t2 = ""
      · simp [hs, hd, pyTruthyStr, ht2] at h
      · simp [hs, hd, pyTruthyStr, ht2] at h
        exact h ▸ directScan_mem hd
  | some t1 =>
    by_cases ht1 : t1 = ""
    · cases hd : directScan batch (d.isbn.getD []) with
      | none => simp [hs, hd, pyTruthyStr, ht1] at h
      | some t2 =>
        by_cases ht2 : t2 = ""
        · simp [hs, hd, pyTruthyStr, ht1, ht2] at h
        · simp [hs, hd, pyTruthyStr, ht1, ht2] at h
          exact h ▸ directScan_mem hd
    · simp [hs, pyTruthyStr, ht1] at h
      exact h ▸ seedScan_mem hs

/-- A successfully built record carries exactly the matched identifier. -/
lemma buildBook_ok_isbn {i : String} {d : Doc} {b : Book}
    (h : buildBook i d = Except.ok b) : b.isbn = [i] := by
  unfold buildBook at h
  split at h
  · cases h
  · cases h
    rfl

/-- Every record the generic per-document loop produces has its identifier
list inside the batch. -/
lemma processDocs_isbn_subset {batch : List String} :
    ∀ {docs : List Doc} {b : Book}, b ∈ processDocs batch docs →
      ∀ x ∈ b.isbn, x ∈ batch := by
  intro docs
  induction docs with
  | nil => intro b hb; simp [processDocs] at hb
  | cons d rest ih =>
    intro b hb x hx
    rw [processDocs] at hb
    split at hb
    · exact ih hb x hx
    · rename_i i hm
      split at hb
      · rename_i b1 hbuild
        rcases List.mem_cons.mp hb with hb1 | hb2
        · subst hb1
          rw [buildBook_ok_isbn hbuild] at hx
          have hx2 : x = i := List.mem_singleton.mp hx
          exact hx2 ▸ matchDoc_mem hm
        · exact ih hb2 x hx
      · simp at hb

/-- Every record of a processed chunk has its identifier list inside that
chunk. -/
lemma processChunk_isbn_subset {batch : List String} {docs : List Doc} {b : Book}
    (hb : b ∈ processChunk batch docs) : ∀ x ∈ b.isbn, x ∈ batch := by
  intro x hx
  unfold processChunk at hb
  split at hb
  · split at hb
    · rename_i oneIsbn d b1 hbuild
      have hb1 : b = b1 := List.mem_singleton.mp hb
      subst hb1
      rw [buildBook_ok_isbn hbuild] at hx
      have hx2 := List.mem_singleton.mp hx
      simp [hx2]
    · simp at hb
  · exact processDocs_isbn_subset hb x hx

/-! ## Helper lemmas: payload dictionary -/

/-- Looking up the key just assigned yields the assigned value. -/
lemma getKey_setKey_eq (p : Payload) (k : String) (v : PyVal) :
    getKey (setKey p k v) k = some v := by
  induction p with
  | nil => simp [setKey, getKey]
  | cons kv rest ih =>
    obtain ⟨k0, v0⟩ := kv
    by_cases h : k0 = k
    · subst h
      simp [setKey, getKey]
    · simp [setKey, getKey, h, ih]

/-- Assigning one key leaves every other key unchanged. -/
lemma getKey_setKey_ne {k' k : String} (p : Payload) (v : PyVal) (h : k' ≠ k) :
    getKey (setKey p k' v) k = getKey p k := by
  induction p with
  | nil => simp [setKey, getKey, h]
  | cons kv rest ih =>
    obtain ⟨k0, v0⟩ := kv
    by_cases h0 : k0 = k'
    · subst h0
      simp [setKey, getKey, h]
    · simp [setKey, getKey, h0, ih]

/-- Deleting a key removes it. -/
lemma getKey_delKey_eq (p : Payload) (k : String) :
    getKey (delKey p k) k = none := by
  induction p with
  | nil => simp [delKey, getKey]
  | cons kv rest ih =>
    obtain ⟨k0, v0⟩ := kv
    by_cases h : k0 = k
    · simp [delKey, getKey, h, ih]
    · simp [delKey, getKey, h, ih]

/-! ## Helper lemmas: export stages -/

/-- A successful owner stage only assigns the owner key. -/
lemma ownerStage_ok_getKey {f : FormState} {p q : Payload} {k : String}
    (h : ownerStage f p = Except.ok q) (hk : k ≠ "users_permissions_user") :
    getKey q k = getKey p k := by
  unfold ownerStage at h
  split at h
  · cases h
  · split at h
    · cases h
      exact getKey_setKey_ne p _ (Ne.symm hk)
    · cases h

/-- Deleting one key leaves every other key unchanged. -/
lemma delKey_getKey_ne {k' k : String} (p : Payload) (h : k ≠ k') :
    getKey (delKey p k') k = getKey p k := by
  induction p with
  | nil => simp [delKey, getKey]
  | cons kv rest ih =>
    obtain ⟨k0, v0⟩ := kv
    by_cases h0 : k0 = k'
    · subst h0
      simp [delKey, getKey, Ne.symm h, ih]
    · simp [delKey, getKey, h0, ih]

/-- A successful price stage at any key other than price changes nothing. -/
lemma priceStage_ok_getKey {f : FormState} {p q : Payload} {k : String}
    (h : priceStage f p = Except.ok q) (hk : k ≠ "price") :
    getKey q k = getKey p k := by
  unfold priceStage at h
  split at h
  · split at h
    · cases h
      exact getKey_setKey_ne p _ (Ne.symm hk)
    · split at h
      · cases h
        exact getKey_setKey_ne p _ (Ne.symm hk)
      · cases h
  · cases h
    split
    · exact delKey_getKey_ne p hk
    · rfl

/-- A successful categories stage at any key other than categories changes
nothing. -/
lemma categoriesStage_ok_getKey {f : FormState} {p q : Payload} {k : String}
    (h : categoriesStage f p = Except.ok q) (hk : k ≠ "categories") :
    getKey q k = getKey p k := by
  unfold categoriesStage at h
  split at h
  · cases h; rfl
  · split at h
    · cases h
      exact getKey_setKey_ne p _ (Ne.symm hk)
    · cases h

/-- A successful cover stage at any key other than cover changes nothing. -/
lemma coverStage_ok_getKey {f : FormState} {p q : Payload} {k : String}
    (h : coverStage f p = Except.ok q) (hk : k ≠ "cover") :
    getKey q k = getKey p k := by
  unfold coverStage at h
  split at h
  · cases h; rfl
  · split at h
    · cases h
      exact getKey_setKey_ne p _ (Ne.symm hk)
    · cases h

/-- The optional trailing fields leave every key other than subject, course,
exchange and displayTitle unchanged. -/
lemma optionalStage_getKey {f : FormState} {p : Payload} {k : String}
    (h1 : k ≠ "subject") (h2 : k ≠ "course") (h3 : k ≠ "exchange")
    (h4 : k ≠ "displayTitle") :
    getKey (optionalStage f p) k = getKey p k := by
  unfold optionalStage
  have s1 : ∀ (q : Payload) (v : PyVal), getKey (setKey q "subject" v) k = getKey q k :=
    fun q v => getKey_setKey_ne q v (Ne.symm h1)
  have s2 : ∀ (q : Payload) (v : PyVal), getKey (setKey q "course" v) k = getKey q k :=
    fun q v => getKey_setKey_ne q v (Ne.symm h2)
  have s3 : ∀ (q : Payload) (v : PyVal), getKey (setKey q "exchange" v) k = getKey q k :=
    fun q v => getKey_setKey_ne q v (Ne.symm h3)
  have s4 : ∀ (q : Payload) (v : PyVal), getKey (setKey q "displayTitle" v) k = getKey q k :=
    fun q v => getKey_setKey_ne q v (Ne.symm h4)
  split <;> split <;> split <;> split <;> simp [s1, s2, s3, s4]

/-- Destructuring a successful export into its stages. -/
lemma exportBookData_ok {f : FormState} {p : Payload}
    (h : exportBookData f = Except.ok p) :
    ∃ p1 p2 p3 p4, ownerStage f (basePayload f) = Except.ok p1 ∧
      priceStage f p1 = Except.ok p2 ∧ categoriesStage f p2 = Except.ok p3 ∧
      coverStage f p3 = Except.ok p4 ∧ p = optionalStage f p4 := by
  unfold exportBookData at h
  cases h1 : ownerStage f (basePayload f) with
  | error e => simp only [h1] at h; exact Except.noConfusion h
  | ok p1 =>
    simp only [h1] at h
    cases h2 : priceStage f p1 with
    | error e => simp only [h2] at h; exact Except.noConfusion h
    | ok p2 =>
      simp only [h2] at h
      cases h3 : categoriesStage f p2 with
      | error e => simp only [h3] at h; exact Except.noConfusion h
      | ok p3 =>
        simp only [h3] at h
        cases h4 : coverStage f p3 with
        | error e => simp only [h4] at h; exact Except.noConfusion h
        | ok p4 =>
          simp only [h4] at h
          exact ⟨p1, p2, p3, p4, rfl, h2, h3, h4, (Except.ok.inj h).symm⟩

/-- The owner stage succeeds on a non-empty parseable owner field. -/
lemma ownerStage_ok_of {f : FormState} (p : Payload)
    (h1 : f.users_permissions_user ≠ "")
    (h2 : (pyInt f.users_permissions_user).isSome = true) :
    ∃ q, ownerStage f p = Except.ok q := by
  unfold ownerStage
  rw [if_neg h1]
  cases hp : pyInt f.users_permissions_user with
  | none => rw [hp] at h2; simp at h2
  | some n => exact ⟨_, rfl⟩

/-- The price stage succeeds when the type is not For Sale, or the price is
empty, or the price parses. -/
lemma priceStage_ok_of {f : FormState} (p : Payload)
    (h : f.bookType ≠ "For Sale" ∨ f.price = "" ∨ (pyFloat f.price).isSome = true) :
    ∃ q, priceStage f p = Except.ok q := by
  unfold priceStage
  by_cases hb : f.bookType = "For Sale"
  · rw [if_pos hb]
    rcases h with h | h | h
    · exact absurd hb h
    · rw [if_pos h]
      exact ⟨_, rfl⟩
    · by_cases hp : f.price = ""
      · rw [if_pos hp]
        exact ⟨_, rfl⟩
      · rw [if_neg hp]
        cases hf : pyFloat f.price with
        | none => rw [hf] at h; simp at h
        | some q => exact ⟨_, rfl⟩
  · rw [if_neg hb]
    exact ⟨_, rfl⟩

/-- The categories stage succeeds on an empty or parseable field. -/
lemma categoriesStage_ok_of {f : FormState} (p : Payload)
    (h : f.categories = "" ∨ (parseIntList f.categories).isOk = true) :
    ∃ q, categoriesStage f p = Except.ok q := by
  unfold categoriesStage
  by_cases hc : f.categories = ""
  · rw [if_pos hc]
    exact ⟨_, rfl⟩
  · rw [if_neg hc]
    rcases h with h | h
    · exact absurd h hc
    · cases hp : parseIntList f.categories with
      | error t => rw [hp] at h; simp [Except.isOk, Except.toBool] at h
      | ok l => exact ⟨_, rfl⟩

/-- Under For Sale, a successful price stage stores a price, and stores
numeric zero when the field is blank. -/
lemma priceStage_ok_forSale {f : FormState} {p q : Payload}
    (hb : f.bookType = "For Sale") (h : priceStage f p = Except.ok q) :
    (getKey q "price").isSome = true ∧
    (f.price = "" → getKey q "price" = some (PyVal.float 0)) := by
  unfold priceStage at h
  rw [if_pos hb] at h
  split at h
  · cases h
    rw [getKey_setKey_eq]
    exact ⟨rfl, fun _ => rfl⟩
  · rename_i hp
    split at h
    · cases h
      rw [getKey_setKey_eq]
      exact ⟨rfl, fun he => absurd he hp⟩
    · cases h

/-- Outside For Sale, a successful price stage stores no price when the
input payload has none. -/
lemma priceStage_ok_notForSale {f : FormState} {p q : Payload}
    (hb : ¬ f.bookType = "For Sale") (hp : getKey p "price" = none)
    (h : priceStage f p = Except.ok q) : getKey q "price" = none := by
  unfold priceStage at h
  rw [if_neg hb] at h
  cases h
  have hh : hasKey p "price" = false := by
    unfold hasKey
    rw [hp]
    rfl
  rw [if_neg (by rw [hh]; exact Bool.false_ne_true)]
  exact hp

/-! ## Concrete objects used by witnesses and counterexamples -/

/-- A document with no populated fields. -/
def docPlain : Doc := ⟨none, none, none, [], none, none, none, none, none⟩

/-- A response oracle answering every chunk with the single plain
document. -/
def respOne : List String → Option (List Doc) := fun _ => some [docPlain]

/-- The record built from the plain document for the identifier
9780141439518. -/
def bookPlain : Book :=
  { title := "Unknown Title"
    authors := ["Unknown Author"]
    cover_url_medium := "https://covers.openlibrary.org/b/isbn/9780141439518-M.jpg"
    cover_url_large := "https://covers.openlibrary.org/b/isbn/9780141439518-L.jpg"
    subjects_from_ol := []
    isbn := ["9780141439518"]
    openlibrary_key := none
    description := "Description not available."
    description_loaded := true }

/-- A document whose first-sentence field is present but empty while the
publish year is truthy: constructing its record raises IndexError. -/
def crashDoc : Doc := ⟨none, none, none, [], none, none, none, some [], some 2020⟩

/-- A document whose seed and identifier fields name only the identifier
000, foreign to the queried chunk. -/
def strayDoc : Doc :=
  ⟨none, none, none, ["/books/b/isbn/000"], some ["000"], none, none, none, none⟩

/-- A document whose seed names 111 while its identifier field names 222. -/
def seedDoc : Doc :=
  ⟨none, none, none, ["/books/b/isbn/111"], some ["222"], none, none, none, none⟩

/-- A fully populated form state that exports successfully. -/
def fBase : FormState :=
  ⟨"T", "A", "Good", "For Sale", "available", " d ", false, false, false,
   false, 0, "7", "", "", "", "", "", "", ""⟩

/-- The payload of the successful export of fBase. -/
def payloadBase : Payload := (exportBookData fBase).toOption.getD []

/-- A form state whose categories field holds a non-numeric token. -/
def fBadCat : FormState :=
  { fBase with bookType := "For Swap", categories := "1, 2,x" }

/-- A record with no external key and an unloaded description. -/
def bookNoKey : Book := ⟨"t", [], "", "", [], ["1"], none, "placeholder", false⟩

/-- Two records with cover URLs, for the bulk download model. -/
def bookA : Book :=
  ⟨"Book A", [], "m", "https://covers.openlibrary.org/b/isbn/1-L.jpg", [],
   ["1"], none, "d", true⟩

/-- Second record with a cover URL. -/
def bookB : Book :=
  ⟨"Book B", [], "m", "https://covers.openlibrary.org/b/isbn/2-L.jpg", [],
   ["2"], none, "d", true⟩

/-- A form state with an empty owner field. -/
def fEmptyOwner : FormState := { fBase with users_permissions_user := "" }

/-- A form state with a non-empty, non-numeric owner field. -/
def fBadOwner : FormState := { fBase with users_permissions_user := "12a" }

/-! ## Claims -/

/-- C1, counterexample: a single-identifier chunk with a single returned
document does not always produce a record. The document whose
first-sentence field is an empty list while the publish year is truthy
makes the description expression raise IndexError inside record
construction, the per-batch handler swallows it, and the chunk yields zero
records instead of exactly one. -/
theorem single_pair_shortcut_cex :
    (["9780141439518"] : List String).length = 1 ∧
    ([crashDoc] : List Doc).length = 1 ∧
    processChunk ["9780141439518"] [crashDoc] = [] ∧
    ¬ (processChunk ["9780141439518"] [crashDoc]).length = 1 := by
  exact ⟨rfl, rfl, rfl, by decide⟩

/-- C1 (amended): in a batch-fetch call whose chunk contains exactly one
identifier and whose parsed response contains exactly one document,
provided record construction does not raise (the description expression
evaluates without IndexError), the document is matched to that identifier
unconditionally: exactly one record is produced and its identifier list is
the queried identifier alone, regardless of the seed references and
identifier fields of the document. -/
theorem single_pair_shortcut_matches (i : String) (d : Doc) (s : String)
    (h : descriptionOf d = Except.ok s) :
    (processChunk [i] [d]).length = 1 ∧ ∀ b ∈ processChunk [i] [d], b.isbn = [i] := by
  have hok : ∃ b, buildBook i d = Except.ok b ∧ b.isbn = [i] := by
    unfold buildBook
    rw [h]
    exact ⟨_, rfl, rfl⟩
  obtain ⟨b, hb, hisbn⟩ := hok
  have hred : processChunk [i] [d] = [b] := by
    show (match buildBook i d with
          | Except.ok b => [b]
          | Except.error _ => ([] : List Book)) = [b]
    rw [hb]
  rw [hred]
  refine ⟨rfl, ?_⟩
  intro b2 hb2
  have he : b2 = b := List.mem_singleton.mp hb2
  rw [he, hisbn]

/-- C1 witness: the shortcut applied to a document whose seed and
identifier fields name only the foreign identifier 000 still matches the
queried identifier. -/
theorem single_pair_shortcut_matches_witness :
    descriptionOf strayDoc = Except.ok "Description not available." ∧
    ((processChunk ["9780141439518"] [strayDoc]).length = 1 ∧
      ∀ b ∈ processChunk ["9780141439518"] [strayDoc], b.isbn = ["9780141439518"]) :=
  ⟨rfl, single_pair_shortcut_matches "9780141439518" strayDoc
    "Description not available." rfl⟩

/-- C2: on the non-shortcut matching path, the seed-field scan takes
priority. Whenever the seed scan yields a token (necessarily a chunk
member), that token is the match of the document; the direct
identifier-field scan decides the match only when the seed scan yields
nothing. Chunks contain no empty identifier (the fetcher strips and filters
them), stated as the hypothesis that the empty string is not in the
batch. -/
theorem seed_scan_priority (batch : List String) (d : Doc) (hne : "" ∉ batch) :
    (∀ t, seedScan batch d.seed = some t → matchDoc batch d = some t) ∧
    (seedScan batch d.seed = none →
      matchDoc batch d = directScan batch (d.isbn.getD [])) := by
  constructor
  · intro t ht
    have htmem : t ∈ batch := seedScan_mem ht
    have htne : t ≠ "" := fun he => hne (he ▸ htmem)
    unfold matchDoc
    rw [ht]
    simp [pyTruthyStr, htne]
  · intro hnone
    unfold matchDoc
    rw [hnone]
    cases hd : directScan batch (d.isbn.getD []) with
    | none => simp [pyTruthyStr]
    | some t =>
      have htmem : t ∈ batch := directScan_mem hd
      have htne : t ≠ "" := fun he => hne (he ▸ htmem)
      simp [pyTruthyStr, htne]

/-- C2 witness: for the chunk of 111 and 222, a document whose seed names
111 while its identifier field names 222 is matched to the seed-derived
111. -/
theorem seed_scan_priority_witness :
    ("" ∉ ["111", "222"]) ∧ matchDoc ["111", "222"] seedDoc = some "111" :=
  ⟨by decide, (seed_scan_priority ["111", "222"] seedDoc (by decide)).1 "111" rfl⟩

/-- C3: evaluating the identifier parsing of fetch_books_by_isbn at the
example input of the specification keeps the duplicate: the output is the
three tokens 123, 456, 123 rather than the deduplicated two. The tokens are
trimmed, non-empty and in first-occurrence order, but no deduplication is
performed, although the comment above the cleanup inside fetch_books_by_isbns
announces removing duplicates. -/
theorem normalizer_keeps_duplicates :
    parseIsbnInput "  123, , 456\n123" = ["123", "456", "123"] ∧
    cleanIsbnList (parseIsbnInput "  123, , 456\n123") = ["123", "456", "123"] := by
  exact ⟨rfl, rfl⟩

/-- C4: every record produced by fetch_books_by_isbns has its identifier
list inside the chunk it was fetched in: there is a batch of the partition
of the cleaned input containing every element of the record identifier
list (in fact that list is always the one matched identifier). -/
theorem fetched_record_isbn_subset (resp : List String → Option (List Doc))
    (isbnList : List String) (b : Book)
    (hb : b ∈ fetchBooksByIsbns resp isbnList) :
    ∃ batch ∈ chunksOf50 (cleanIsbnList isbnList), ∀ x ∈ b.isbn, x ∈ batch := by
  unfold fetchBooksByIsbns at hb
  rw [List.mem_flatMap] at hb
  obtain ⟨batch, hbatch, hb2⟩ := hb
  refine ⟨batch, hbatch, ?_⟩
  cases hr : resp batch with
  | none => simp only [hr] at hb2; simp at hb2
  | some docs =>
    simp only [hr] at hb2
    exact processChunk_isbn_subset hb2

/-- C4 witness: the record fetched for 9780141439518 through the oracle
answering with the plain document lies in the output, and its identifier
list is inside the one chunk. -/
theorem fetched_record_isbn_subset_witness :
    bookPlain ∈ fetchBooksByIsbns respOne ["9780141439518"] ∧
    ∃ batch ∈ chunksOf50 (cleanIsbnList ["9780141439518"]),
      ∀ x ∈ bookPlain.isbn, x ∈ batch :=
  ⟨by decide, fetched_record_isbn_subset respOne ["9780141439518"] bookPlain (by decide)⟩

/-- C5: an empty owner field makes export_book_data report the
missing-owner validation failure and abort with no payload. -/
theorem export_missing_owner (f : FormState) (h : f.users_permissions_user = "") :
    exportBookData f = Except.error ExportError.missingOwner := by
  have h1 : ownerStage f (basePayload f) = Except.error ExportError.missingOwner := by
    unfold ownerStage
    rw [if_pos h]
  unfold exportBookData
  rw [h1]

/-- C5 witness. -/
theorem export_missing_owner_witness :
    fEmptyOwner.users_permissions_user = "" ∧
    exportBookData fEmptyOwner = Except.error ExportError.missingOwner :=
  ⟨rfl, export_missing_owner fEmptyOwner rfl⟩

/-- C6: in every successful export, the price key is present in the payload
exactly when the book type is For Sale, and a blank price under For Sale is
stored as numeric zero. -/
theorem export_price_iff_for_sale (f : FormState) (p : Payload)
    (h : exportBookData f = Except.ok p) :
    (hasKey p "price" = true ↔ f.bookType = "For Sale") ∧
    (f.bookType = "For Sale" → f.price = "" →
      getKey p "price" = some (PyVal.float 0)) := by
  obtain ⟨p1, p2, p3, p4, h1, h2, h3, h4, hp⟩ := exportBookData_ok h
  have hbase : getKey (basePayload f) "price" = none := by
    simp [basePayload, getKey]
  have hp1 : getKey p1 "price" = none := by
    rw [ownerStage_ok_getKey h1 (by decide), hbase]
  have hok : getKey p "price" = getKey p2 "price" := by
    rw [hp, optionalStage_getKey (by decide) (by decide) (by decide) (by decide),
        coverStage_ok_getKey h4 (by decide), categoriesStage_ok_getKey h3 (by decide)]
  constructor
  · constructor
    · intro hk
      by_contra hb
      have hnone := priceStage_ok_notForSale hb hp1 h2
      simp only [hasKey] at hk
      rw [hok, hnone] at hk
      simp at hk
    · intro hb
      have hsome := (priceStage_ok_forSale hb h2).1
      simp only [hasKey]
      rw [hok]
      exact hsome
  · intro hb hpr
    have hz := (priceStage_ok_forSale hb h2).2 hpr
    rw [hok]
    exact hz

/-- C6 witness: the base form state is For Sale with a blank price; its
payload carries price zero, and the presence of the key matches the type
test. -/
theorem export_price_iff_for_sale_witness :
    exportBookData fBase = Except.ok payloadBase ∧
    ((hasKey payloadBase "price" = true ↔ fBase.bookType = "For Sale") ∧
     (fBase.bookType = "For Sale" → fBase.price = "" →
       getKey payloadBase "price" = some (PyVal.float 0))) :=
  ⟨rfl, export_price_iff_for_sale fBase payloadBase rfl⟩

/-- C7: the categories field is omitted when blank and stored as the list
of parsed integers otherwise; a non-numeric token aborts the export with a
validation failure naming the offending (stripped) token, provided the
earlier owner and price steps pass; the cover field obeys the same
parse-or-abort rule. -/
theorem export_categories_and_cover (f : FormState) :
    (∀ p, exportBookData f = Except.ok p → f.categories = "" →
        hasKey p "categories" = false)
  ∧ (∀ p l, exportBookData f = Except.ok p → parseIntList f.categories = Except.ok l →
        f.categories ≠ "" →
        getKey p "categories" = some (PyVal.list (l.map PyVal.int)))
  ∧ (∀ t, f.users_permissions_user ≠ "" → (pyInt f.users_permissions_user).isSome = true →
        (f.bookType ≠ "For Sale" ∨ f.price = "" ∨ (pyFloat f.price).isSome = true) →
        f.categories ≠ "" → parseIntList f.categories = Except.error t →
        exportBookData f = Except.error (ExportError.invalidNumber t))
  ∧ (f.users_permissions_user ≠ "" → (pyInt f.users_permissions_user).isSome = true →
        (f.bookType ≠ "For Sale" ∨ f.price = "" ∨ (pyFloat f.price).isSome = true) →
        (f.categories = "" ∨ (parseIntList f.categories).isOk = true) →
        f.cover ≠ "" → pyInt f.cover = none →
        exportBookData f = Except.error (ExportError.invalidNumber f.cover)) := by
  refine ⟨?_, ?_, ?_, ?_⟩
  · intro p h hc
    obtain ⟨p1, p2, p3, p4, h1, h2, h3, h4, hp⟩ := exportBookData_ok h
    have hp32 : p3 = p2 := by
      unfold categoriesStage at h3
      rw [if_pos hc] at h3
      exact (Except.ok.inj h3).symm
    have hcat2 : getKey p2 "categories" = none := by
      have hbase : getKey (basePayload f) "categories" = none := by
        simp [basePayload, getKey]
      rw [priceStage_ok_getKey h2 (by decide), ownerStage_ok_getKey h1 (by decide), hbase]
    simp only [hasKey]
    rw [hp, optionalStage_getKey (by decide) (by decide) (by decide) (by decide),
        coverStage_ok_getKey h4 (by decide), hp32, hcat2]
    rfl
  · intro p l h hl hc
    obtain ⟨p1, p2, p3, p4, h1, h2, h3, h4, hp⟩ := exportBookData_ok h
    have h3v : p3 = setKey p2 "categories" (PyVal.list (l.map PyVal.int)) := by
      unfold categoriesStage at h3
      rw [if_neg hc, hl] at h3
      exact (Except.ok.inj h3).symm
    rw [hp, optionalStage_getKey (by decide) (by decide) (by decide) (by decide),
        coverStage_ok_getKey h4 (by decide), h3v, getKey_setKey_eq]
  · intro t h1 h2 hpr hc herr
    obtain ⟨q1, ho1⟩ := ownerStage_ok_of (basePayload f) h1 h2
    obtain ⟨q2, ho2⟩ := priceStage_ok_of q1 hpr
    have hcs : categoriesStage f q2 = Except.error (ExportError.invalidNumber t) := by
      unfold categoriesStage
      rw [if_neg hc, herr]
    unfold exportBookData
    simp only [ho1, ho2, hcs]
  · intro h1 h2 hpr hcat hcv hcvint
    obtain ⟨q1, ho1⟩ := ownerStage_ok_of (basePayload f) h1 h2
    obtain ⟨q2, ho2⟩ := priceStage_ok_of q1 hpr
    obtain ⟨q3, ho3⟩ := categoriesStage_ok_of q2 hcat
    have hcov : coverStage f q3 = Except.error (ExportError.invalidNumber f.cover) := by
      unfold coverStage
      rw [if_neg hcv, hcvint]
    unfold exportBookData
    simp only [ho1, ho2, ho3, hcov]

/-- C7 witness: the form whose categories field is the example text with a
non-numeric third token aborts with the failure naming x. -/
theorem export_categories_and_cover_witness :
    parseIntList "1, 2,x" = Except.error "x" ∧
    parseIntList "1,2" = Except.ok [1, 2] ∧
    exportBookData fBadCat = Except.error (ExportError.invalidNumber "x") := by
  refine ⟨rfl, rfl, ?_⟩
  exact (export_categories_and_cover fBadCat).2.2.1 "x" (by decide) (by decide)
    (Or.inl (by decide)) (by decide) rfl

/-- C8, counterexample: a failed detail enrichment does not leave the
description-loaded flag false. The record with no external key fails the
fetch (no key provided), yet after the load step its description-loaded
flag is true, so the enrichment is not retried on the next access. -/
theorem enrich_failure_cex :
    bookNoKey.description_loaded = false ∧
    (fetchBookDetails bookNoKey.openlibrary_key (DetailResp.exn "boom")).1 = none ∧
    (loadBookDescription bookNoKey (DetailResp.exn "boom")).description_loaded = true :=
  ⟨rfl, rfl, rfl⟩

/-- C8 (amended): every failed detail enrichment of a not-yet-loaded record
stores the failure reason in the description and sets the
description-loaded flag to true, so the enrichment is not retried on the
next access: a second load, with any oracle, returns the record
unchanged. -/
theorem enrich_failure_marks_loaded (b : Book) (r r2 : DetailResp)
    (h : b.description_loaded = false)
    (hf : (fetchBookDetails b.openlibrary_key r).1 = none) :
    (loadBookDescription b r).description_loaded = true ∧
    (loadBookDescription b r).description =
      "Error fetching description: " ++ (fetchBookDetails b.openlibrary_key r).2.getD "" ∧
    loadBookDescription (loadBookDescription b r) r2 = loadBookDescription b r := by
  have hload : loadBookDescription b r =
      { b with
        description := "Error fetching description: " ++
          (fetchBookDetails b.openlibrary_key r).2.getD ""
        description_loaded := true } := by
    unfold loadBookDescription
    rw [if_neg (by rw [h]; exact Bool.false_ne_true)]
    simp only [hf]
  refine ⟨by rw [hload], by rw [hload], ?_⟩
  rw [hload]
  simp [loadBookDescription]

/-- C8 witness: the record with no key, under a non-success oracle. -/
theorem enrich_failure_marks_loaded_witness :
    bookNoKey.description_loaded = false ∧
    (fetchBookDetails bookNoKey.openlibrary_key (DetailResp.httpStatus 503)).1 = none ∧
    ((loadBookDescription bookNoKey (DetailResp.httpStatus 503)).description_loaded = true ∧
     (loadBookDescription bookNoKey (DetailResp.httpStatus 503)).description =
       "Error fetching description: " ++
         (fetchBookDetails bookNoKey.openlibrary_key (DetailResp.httpStatus 503)).2.getD "" ∧
     loadBookDescription (loadBookDescription bookNoKey (DetailResp.httpStatus 503))
         (DetailResp.exn "x") =
       loadBookDescription bookNoKey (DetailResp.httpStatus 503)) :=
  ⟨rfl, rfl,
    enrich_failure_marks_loaded bookNoKey (DetailResp.httpStatus 503)
      (DetailResp.exn "x") rfl rfl⟩

/-- C9: evaluating the bulk download at two records with cover URLs and a
remote answering 200 to every request. The first record is downloaded, then
the loop dies with the NameError raised by the time.sleep call (the time
module is never imported), so the second record is never processed: the
batch is aborted rather than continued. -/
theorem download_covers_abort :
    downloadCoversToFolder (fun _ => CoverResp.httpResp 200 "img") [bookA, bookB] =
      ⟨[LogEntry.downloaded "Book A"], ["downloaded_book_covers/1_Book_A.jpg"],
        some PyRuntimeError.nameErrorTime⟩ := rfl

/-- C10 (implicit): a non-empty owner field that int() cannot parse makes
export_book_data report the invalid-number validation failure naming the
field, and no payload is emitted. -/
theorem export_owner_nonnumeric (f : FormState)
    (h1 : f.users_permissions_user ≠ "") (h2 : pyInt f.users_permissions_user = none) :
    exportBookData f = Except.error (ExportError.invalidNumber f.users_permissions_user) := by
  have ho : ownerStage f (basePayload f) =
      Except.error (ExportError.invalidNumber f.users_permissions_user) := by
    unfold ownerStage
    rw [if_neg h1, h2]
  unfold exportBookData
  rw [ho]

/-- C10 witness: owner field 12a is non-empty yet non-numeric and aborts
the export. -/
theorem export_owner_nonnumeric_witness :
    fBadOwner.users_permissions_user ≠ "" ∧
    pyInt fBadOwner.users_permissions_user = none ∧
    exportBookData fBadOwner = Except.error (ExportError.invalidNumber "12a") :=
  ⟨by decide, rfl, export_owner_nonnumeric fBadOwner (by decide) rfl⟩

end BookCoverCollector
